import Mathlib

/-!
# Verification of the car-tuning recommendation engine

Shallow embedding of the recommendation engine of the `car-tuning` repository
(`src/src/recommendation_engine.py`, `src/src/knowledge_base.py`,
`src/src/models.py`) together with proofs about the engine's behaviour.

Modelling conventions:
* Python floats are modelled as exact rationals (`ℚ`).  Every numeric value in
  the static catalog is a decimal with at most one fractional digit and every
  arithmetic operation performed by the engine (sums of costs, products with
  1.2 / 0.7 / 1.1, comparisons) is exact on these values, so no claim here
  depends on floating-point rounding.
* Python's string-valued enums (`class SafetyLevel(str, Enum)`) are modelled as
  inductive types together with an explicit `value` projection to `String`,
  because the engine compares the *string* values of `SafetyLevel` members
  (`option["safety_level"].value > filters["max_safety_level"].value`), which
  is a lexicographic string comparison in Python.
* Fields of catalog entries that carry only display text and never enter any
  engine decision (description, benefits, compatibility_notes, prerequisites,
  safety_warnings, legal_considerations, warranty/emissions/insurance impact,
  installation_difficulty, professional_required) are omitted from the
  embedding; the fields that drive the engine (name, cost_range,
  priority_score, safety_level, category) are transcribed verbatim.
* Report fields that are derived display data and are not mentioned by any
  claim (compatibility_matrix, safety_summary, legal_summary, disclaimer,
  generated_at) are likewise omitted from the `TuningReport` record.
-/

namespace CarTuning

/-! ## Data model (`src/src/models.py`) -/

/-- `EngineType` enum (`models.py`): petrol | diesel | hybrid | electric. -/
inductive EngineType
  | petrol
  | diesel
  | hybrid
  | electric
deriving DecidableEq, Repr

/-- `ExperienceLevel` enum (`models.py`): beginner | intermediate | advanced. -/
inductive ExperienceLevel
  | beginner
  | intermediate
  | advanced
deriving DecidableEq, Repr

/-- `DrivingGoal` enum (`models.py`). -/
inductive DrivingGoal
  | performance
  | fuel_economy
  | daily_comfort
  | track_use
  | off_roading
deriving DecidableEq, Repr

/-- `BudgetRange` enum (`models.py`). -/
inductive BudgetRange
  | budget
  | moderate
  | premium
  | unlimited
deriving DecidableEq, Repr

/-- `TuningCategory` enum (`models.py`). -/
inductive TuningCategory
  | ecu_remapping
  | exhaust_system
  | suspension
  | air_intake
  | tires_wheels
  | brake_system
  | cosmetic
deriving DecidableEq, Repr

/-- `SafetyLevel` enum (`models.py`): LOW = "low", MEDIUM = "medium",
HIGH = "high".  It is a `str`-valued enum; `value` below recovers the string
payload of each member. -/
inductive SafetyLevel
  | low
  | medium
  | high
deriving DecidableEq, Repr

/-- The `.value` string of a `SafetyLevel` member (`models.py` lines 78-82). -/
def SafetyLevel.value : SafetyLevel → String
  | .low => "low"
  | .medium => "medium"
  | .high => "high"

/-- A `{"min": _, "max": _}` cost dictionary. -/
structure CostRange where
  min : ℚ
  max : ℚ
deriving DecidableEq, Repr

/-- A knowledge-base tuning option (one catalog dictionary in
`knowledge_base.py`), restricted to the fields the engine reads. -/
structure TuningOption where
  name : String
  cost_range : CostRange
  priority_score : ℚ
  safety_level : SafetyLevel
deriving DecidableEq, Repr

/-- `TuningRecommendation` (`models.py`), restricted to the fields the engine
logic reads or writes: the copied option fields plus the category. -/
structure TuningRecommendation where
  category : TuningCategory
  name : String
  cost_range : CostRange
  priority_score : ℚ
  safety_level : SafetyLevel
deriving DecidableEq, Repr

/-- `CarInfo` (`models.py`). -/
structure CarInfo where
  make : String
  model : String
  year : Int
  engine_type : EngineType
  current_modifications : List String

/-- `UserPreferences` (`models.py`).  `max_budget` is `Optional[float]`. -/
structure UserPreferences where
  primary_goals : List DrivingGoal
  budget_range : BudgetRange
  experience_level : ExperienceLevel
  max_budget : Option ℚ

/-- The `{"min": _, "max": _, "currency": _}` dictionary returned by
`_calculate_total_cost`. -/
structure TotalCost where
  min : ℚ
  max : ℚ
  currency : String
deriving DecidableEq, Repr

/-- One entry of the experience-filter table
(`_initialize_experience_filters`). -/
structure ExperienceFilter where
  max_safety_level : SafetyLevel
  max_priority_score : ℚ
  prefer_professional_installation : Bool
  avoid_high_risk_mods : Bool

/-- `TuningReport` (`models.py`), restricted to the fields the claims are
about (see the module comment for the omitted derived display fields). -/
structure TuningReport where
  car_info : CarInfo
  user_preferences : UserPreferences
  recommendations : List TuningRecommendation
  total_estimated_cost : TotalCost

/-! ## Knowledge base (`src/src/knowledge_base.py`) -/

/-- "Stage 1 ECU Remap" (`knowledge_base.py`). -/
def stage_1_ecu_remap : TuningOption :=
  { name := "Stage 1 ECU Remap", cost_range := ⟨300, 800⟩,
    priority_score := 9, safety_level := .medium }

/-- "Stage 2 ECU Remap" (`knowledge_base.py`); priority 8.5. -/
def stage_2_ecu_remap : TuningOption :=
  { name := "Stage 2 ECU Remap", cost_range := ⟨500, 1200⟩,
    priority_score := 17/2, safety_level := .high }

/-- "Performance Exhaust System" (`knowledge_base.py`); priority 7.5. -/
def performance_exhaust_system : TuningOption :=
  { name := "Performance Exhaust System", cost_range := ⟨400, 2000⟩,
    priority_score := 15/2, safety_level := .low }

/-- "Cat-Back Exhaust System" (`knowledge_base.py`). -/
def cat_back_exhaust_system : TuningOption :=
  { name := "Cat-Back Exhaust System", cost_range := ⟨300, 1500⟩,
    priority_score := 7, safety_level := .low }

/-- "Cold Air Intake System" (`knowledge_base.py`); priority 6.5. -/
def cold_air_intake_system : TuningOption :=
  { name := "Cold Air Intake System", cost_range := ⟨150, 500⟩,
    priority_score := 13/2, safety_level := .low }

/-- "Performance Air Filter" (`knowledge_base.py`). -/
def performance_air_filter : TuningOption :=
  { name := "Performance Air Filter", cost_range := ⟨50, 200⟩,
    priority_score := 5, safety_level := .low }

/-- "Lowering Springs" (`knowledge_base.py`). -/
def lowering_springs : TuningOption :=
  { name := "Lowering Springs", cost_range := ⟨200, 800⟩,
    priority_score := 6, safety_level := .medium }

/-- "Coilover Suspension" (`knowledge_base.py`); priority 7.5. -/
def coilover_suspension : TuningOption :=
  { name := "Coilover Suspension", cost_range := ⟨800, 3000⟩,
    priority_score := 15/2, safety_level := .medium }

/-- "Performance Tires" (`knowledge_base.py`). -/
def performance_tires : TuningOption :=
  { name := "Performance Tires", cost_range := ⟨400, 1200⟩,
    priority_score := 8, safety_level := .low }

/-- "Lightweight Wheels" (`knowledge_base.py`); priority 6.5. -/
def lightweight_wheels : TuningOption :=
  { name := "Lightweight Wheels", cost_range := ⟨600, 2000⟩,
    priority_score := 13/2, safety_level := .low }

/-- "Performance Brake Pads" (`knowledge_base.py`). -/
def performance_brake_pads : TuningOption :=
  { name := "Performance Brake Pads", cost_range := ⟨100, 400⟩,
    priority_score := 7, safety_level := .medium }

/-- "Big Brake Kit" (`knowledge_base.py`); priority 8.5. -/
def big_brake_kit : TuningOption :=
  { name := "Big Brake Kit", cost_range := ⟨1500, 5000⟩,
    priority_score := 17/2, safety_level := .high }

/-- "Body Kit" (`knowledge_base.py`). -/
def body_kit : TuningOption :=
  { name := "Body Kit", cost_range := ⟨500, 3000⟩,
    priority_score := 3, safety_level := .low }

/-- `_initialize_tuning_options` (`knowledge_base.py` lines 22-266), as the
map category ↦ option list. -/
def tuning_options : TuningCategory → List TuningOption
  | .ecu_remapping => [stage_1_ecu_remap, stage_2_ecu_remap]
  | .exhaust_system => [performance_exhaust_system, cat_back_exhaust_system]
  | .air_intake => [cold_air_intake_system, performance_air_filter]
  | .suspension => [lowering_springs, coilover_suspension]
  | .tires_wheels => [performance_tires, lightweight_wheels]
  | .brake_system => [performance_brake_pads, big_brake_kit]
  | .cosmetic => [body_kit]

/-- `get_tuning_options_for_category` (`knowledge_base.py` line 318).  The
Python `dict.get(category, [])` default is unreachable here because the
dictionary covers every `TuningCategory` constructor. -/
def get_tuning_options_for_category (category : TuningCategory) : List TuningOption :=
  tuning_options category

/-- `_get_budget_ranges` (`knowledge_base.py` lines 280-287). -/
def budget_ranges : BudgetRange → CostRange
  | .budget => ⟨500, 2000⟩
  | .moderate => ⟨2000, 8000⟩
  | .premium => ⟨8000, 20000⟩
  | .unlimited => ⟨20000, 100000⟩

/-- `get_budget_range` (`knowledge_base.py` lines 326-328).  The
`dict.get(_, {"min": 0, "max": 0})` default is unreachable for enum keys. -/
def get_budget_range (budget_range : BudgetRange) : CostRange :=
  budget_ranges budget_range

/-! ## Recommendation engine (`src/src/recommendation_engine.py`) -/

/-- `_initialize_goal_priorities` (`recommendation_engine.py` lines 24-62). -/
def goal_priorities : DrivingGoal → List TuningCategory
  | .performance =>
      [.ecu_remapping, .exhaust_system, .air_intake, .tires_wheels,
       .brake_system, .suspension, .cosmetic]
  | .fuel_economy => [.ecu_remapping, .air_intake, .tires_wheels, .cosmetic]
  | .daily_comfort => [.suspension, .tires_wheels, .cosmetic]
  | .track_use =>
      [.ecu_remapping, .brake_system, .suspension, .tires_wheels,
       .exhaust_system, .air_intake, .cosmetic]
  | .off_roading => [.suspension, .tires_wheels, .brake_system, .cosmetic]

/-- `_initialize_experience_filters` (`recommendation_engine.py` lines 64-85).
The intermediate and advanced `max_priority_score` values are 8.5 and 10.0. -/
def experience_filters : ExperienceLevel → ExperienceFilter
  | .beginner =>
      { max_safety_level := .medium, max_priority_score := 7,
        prefer_professional_installation := true, avoid_high_risk_mods := true }
  | .intermediate =>
      { max_safety_level := .high, max_priority_score := 17/2,
        prefer_professional_installation := false, avoid_high_risk_mods := false }
  | .advanced =>
      { max_safety_level := .high, max_priority_score := 10,
        prefer_professional_installation := false, avoid_high_risk_mods := false }

/-- Python's lexicographic `<` on strings, character lists compared by code
point, with a proper prefix smaller than the longer string. -/
def pyCharsLt : List Char → List Char → Bool
  | [], [] => false
  | [], _ :: _ => true
  | _ :: _, [] => false
  | a :: as, b :: bs =>
      if a.toNat < b.toNat then true
      else if b.toNat < a.toNat then false
      else pyCharsLt as bs

/-- Python's `s1 < s2` on strings. -/
def py_str_lt (s1 s2 : String) : Bool :=
  pyCharsLt s1.data s2.data

/-- `_passes_experience_filters` (`recommendation_engine.py` lines 192-206).
The first check is
`option["safety_level"].value > filters["max_safety_level"].value`: because
`SafetyLevel` is a `str` enum, `.value` is the string payload and `>` is
Python's lexicographic string comparison (`a > b` iff `b < a`). -/
def passes_experience_filters (option : TuningOption) (filters : ExperienceFilter) : Bool :=
  if py_str_lt filters.max_safety_level.value option.safety_level.value then false
  else if filters.max_priority_score < option.priority_score then false
  else if filters.avoid_high_risk_mods ∧ option.safety_level = SafetyLevel.high then false
  else true

/-- `needle` occurs at the start of the second list. -/
def chars_start_with : List Char → List Char → Bool
  | [], _ => true
  | _ :: _, [] => false
  | p :: ps, c :: cs => p == c && chars_start_with ps cs

/-- Python's `needle in haystack` substring test on characters. -/
def chars_contain (needle : List Char) : List Char → Bool
  | [] => needle.isEmpty
  | c :: cs => chars_start_with needle (c :: cs) || chars_contain needle cs

/-- Python's `"ECU" in name`. -/
def name_contains_ECU (name : String) : Bool :=
  chars_contain ['E', 'C', 'U'] name.data

/-- `_is_compatible_with_engine` (`recommendation_engine.py` lines 208-219):
reject only when the name contains "ECU" and the engine is electric (the
hybrid branch of the source is a `pass`). -/
def is_compatible_with_engine (option : TuningOption) (engine_type : EngineType) : Bool :=
  if name_contains_ECU option.name && decide (engine_type = EngineType.electric) then false
  else true

/-- `_adjust_priority_score` (`recommendation_engine.py` lines 221-242).
The multipliers 1.2, 0.7 and 1.1 are written 12/10, 7/10 and 11/10. -/
def adjust_priority_score (recommendation : TuningRecommendation) (goal : DrivingGoal)
    (preferences : UserPreferences) : ℚ :=
  let s1 := recommendation.priority_score
  let s2 := if goal ∈ preferences.primary_goals then s1 * (12/10) else s1
  let s3 := if preferences.experience_level = ExperienceLevel.beginner ∧
               recommendation.safety_level = SafetyLevel.high then s2 * (7/10) else s2
  let s4 := if preferences.budget_range = BudgetRange.budget ∧
               recommendation.cost_range.max < 1000 then s3 * (11/10) else s3
  min s4 10

/-- The `TuningRecommendation(...)` constructor call inside
`_generate_goal_recommendations` (lines 165-182): copy the option's fields
and attach the category. -/
def mk_recommendation (category : TuningCategory) (option : TuningOption) :
    TuningRecommendation :=
  { category := category, name := option.name, cost_range := option.cost_range,
    priority_score := option.priority_score, safety_level := option.safety_level }

/-- The three `continue` filters of the generation loop (lines 151-162): the
experience filters, the single-item budget check `cost_range.max > max_budget`
(kept iff `cost_range.max ≤ max_budget`), and engine compatibility. -/
def option_allowed (car_info : CarInfo) (max_budget : ℚ) (filters : ExperienceFilter)
    (option : TuningOption) : Bool :=
  passes_experience_filters option filters &&
    decide (option.cost_range.max ≤ max_budget) &&
    is_compatible_with_engine option car_info.engine_type

/-- `_generate_goal_recommendations` (`recommendation_engine.py` lines
136-190): for each category of the goal's priority list, every surviving
option becomes a recommendation whose priority score is then adjusted. -/
def generate_goal_recommendations (car_info : CarInfo) (user_preferences : UserPreferences)
    (goal : DrivingGoal) (max_budget : ℚ) (filters : ExperienceFilter) :
    List TuningRecommendation :=
  (goal_priorities goal).flatMap fun category =>
    ((get_tuning_options_for_category category).filter
        (option_allowed car_info max_budget filters)).map fun option =>
      let r := mk_recommendation category option
      { r with priority_score := adjust_priority_score r goal user_preferences }

/-- The deduplication key `(rec.category, rec.name)` (line 250). -/
def rec_key (r : TuningRecommendation) : TuningCategory × String :=
  (r.category, r.name)

/-- The loop of `_deduplicate_recommendations` with its `seen` set (modelled
as the list of keys added so far). -/
def dedup_go (seen : List (TuningCategory × String)) :
    List TuningRecommendation → List TuningRecommendation
  | [] => []
  | r :: rest =>
      if rec_key r ∈ seen then dedup_go seen rest
      else r :: dedup_go (rec_key r :: seen) rest

/-- `_deduplicate_recommendations` (`recommendation_engine.py` lines 244-255). -/
def deduplicate_recommendations (recommendations : List TuningRecommendation) :
    List TuningRecommendation :=
  dedup_go [] recommendations

/-- The descending priority order used by
`sorted(..., key=lambda x: x.priority_score, reverse=True)`. -/
def priority_ge (a b : TuningRecommendation) : Prop :=
  b.priority_score ≤ a.priority_score

instance : DecidableRel priority_ge :=
  fun a b => (inferInstance : Decidable (b.priority_score ≤ a.priority_score))

instance : IsTotal TuningRecommendation priority_ge :=
  ⟨fun a b => le_total b.priority_score a.priority_score⟩

instance : IsTrans TuningRecommendation priority_ge :=
  ⟨fun _ _ _ h1 h2 => le_trans h2 h1⟩

/-- The `sorted(unique_recommendations, key=lambda x: x.priority_score,
reverse=True)` call (line 106).  Python's sort is stable; a stable sort with
respect to a total preorder is unique, and `List.insertionSort priority_ge`
is exactly the stable descending-by-score sort. -/
def sort_by_priority_desc (l : List TuningRecommendation) : List TuningRecommendation :=
  List.insertionSort priority_ge l

/-- The scan of `_filter_by_budget` (lines 259-271) with its running
`total_cost` accumulator, before the final `[:10]` truncation. -/
def budget_pass (max_budget : ℚ) : ℚ → List TuningRecommendation → List TuningRecommendation
  | _, [] => []
  | total_cost, r :: rest =>
      if total_cost + r.cost_range.max ≤ max_budget then
        r :: budget_pass max_budget (total_cost + r.cost_range.max) rest
      else if total_cost + r.cost_range.min ≤ max_budget then
        r :: budget_pass max_budget (total_cost + r.cost_range.min) rest
      else budget_pass max_budget total_cost rest

/-- `_filter_by_budget` (`recommendation_engine.py` lines 257-273): the greedy
scan followed by `filtered[:10]`. -/
def filter_by_budget (recommendations : List TuningRecommendation) (max_budget : ℚ) :
    List TuningRecommendation :=
  (budget_pass max_budget 0 recommendations).take 10

/-- `_calculate_total_cost` (`recommendation_engine.py` lines 275-284). -/
def calculate_total_cost (recommendations : List TuningRecommendation) : TotalCost :=
  { min := (recommendations.map fun r => r.cost_range.min).sum,
    max := (recommendations.map fun r => r.cost_range.max).sum,
    currency := "USD" }

/-- The budget-cap resolution
`max_budget = user_preferences.max_budget or budget_range["max"]` (line 91).
Python's `or` falls through to the budget-range bound when `max_budget` is
`None` **or** `0.0` (both falsy). -/
def resolve_max_budget (user_preferences : UserPreferences) : ℚ :=
  match user_preferences.max_budget with
  | some b => if b = 0 then (get_budget_range user_preferences.budget_range).max else b
  | none => (get_budget_range user_preferences.budget_range).max

/-- The working list built by the goal loop of `generate_recommendations`
(lines 97-102). -/
def all_recommendations (car_info : CarInfo) (user_preferences : UserPreferences) :
    List TuningRecommendation :=
  user_preferences.primary_goals.flatMap fun goal =>
    generate_goal_recommendations car_info user_preferences goal
      (resolve_max_budget user_preferences)
      (experience_filters user_preferences.experience_level)

/-- `generate_recommendations` (`recommendation_engine.py` lines 87-134),
restricted to the report fields the claims are about. -/
def generate_recommendations (car_info : CarInfo) (user_preferences : UserPreferences) :
    TuningReport :=
  let max_budget := resolve_max_budget user_preferences
  let unique_recommendations :=
    deduplicate_recommendations (all_recommendations car_info user_preferences)
  let sorted_recommendations := sort_by_priority_desc unique_recommendations
  let filtered_recommendations := filter_by_budget sorted_recommendations max_budget
  { car_info := car_info, user_preferences := user_preferences,
    recommendations := filtered_recommendations,
    total_estimated_cost := calculate_total_cost filtered_recommendations }

/-! ## Specification-side definitions

Definitions in this section follow the specification's wording (not the code);
each is used to compare the code's behaviour against the spec. -/

/-- The spec's ordinal order on safety levels (glossary: "ordinal risk
classification (low < medium < high)"), as a rank. -/
def safety_ordinal : SafetyLevel → Nat
  | .low => 0
  | .medium => 1
  | .high => 2

/-- The greedy budget scan of `_filter_by_budget` instrumented with the
amount actually charged for each accepted item: `cost_range.max` for a
normally accepted item, `cost_range.min` for a fallback-accepted one. -/
def budget_pass_charged (max_budget : ℚ) :
    ℚ → List TuningRecommendation → List (TuningRecommendation × ℚ)
  | _, [] => []
  | total_cost, r :: rest =>
      if total_cost + r.cost_range.max ≤ max_budget then
        (r, r.cost_range.max) :: budget_pass_charged max_budget (total_cost + r.cost_range.max) rest
      else if total_cost + r.cost_range.min ≤ max_budget then
        (r, r.cost_range.min) :: budget_pass_charged max_budget (total_cost + r.cost_range.min) rest
      else budget_pass_charged max_budget total_cost rest

/-- The sum of the charged amounts of a charged selection. -/
def charge_sum (l : List (TuningRecommendation × ℚ)) : ℚ :=
  (l.map Prod.snd).sum

/-- Modelled from the spec: step 6 of the top-level algorithm as worded there
("Stop accepting once 10 recommendations have been accepted regardless of
remaining budget"), i.e. a greedy scan that terminates as soon as the
remaining acceptance budget `k` reaches 0.  The code instead scans the whole
list and truncates afterwards (`filtered[:10]`); the two are proved equal. -/
def spec_greedy_select (max_budget : ℚ) :
    ℚ → Nat → List TuningRecommendation → List TuningRecommendation
  | _, _, [] => []
  | _, 0, _ :: _ => []
  | total_cost, Nat.succ k, r :: rest =>
      if total_cost + r.cost_range.max ≤ max_budget then
        r :: spec_greedy_select max_budget (total_cost + r.cost_range.max) k rest
      else if total_cost + r.cost_range.min ≤ max_budget then
        r :: spec_greedy_select max_budget (total_cost + r.cost_range.min) k rest
      else spec_greedy_select max_budget total_cost (Nat.succ k) rest

/-! ## Concrete scenario inputs and expected outputs -/

/-- A vehicle for the spec's Scenario C (the engine reads only
`engine_type`). -/
def carC : CarInfo := ⟨"Any", "Car", 2020, .petrol, []⟩

/-- The preferences of the spec's Scenario C: goals `[daily_comfort,
fuel_economy]`, budget range `budget`, beginner, `max_budget = 2000`. -/
def prefsC : UserPreferences :=
  ⟨[.daily_comfort, .fuel_economy], .budget, .beginner, some 2000⟩

/-- Scenario C, generated "Lowering Springs": 6.0 · 1.2 · 1.1 = 7.92 = 198/25. -/
def LSr : TuningRecommendation :=
  ⟨.suspension, "Lowering Springs", ⟨200, 800⟩, 198/25, .medium⟩

/-- Scenario C, generated "Lightweight Wheels": 6.5 · 1.2 = 7.8 = 39/5. -/
def LWr : TuningRecommendation :=
  ⟨.tires_wheels, "Lightweight Wheels", ⟨600, 2000⟩, 39/5, .low⟩

/-- Scenario C, generated "Cold Air Intake System": 6.5 · 1.2 · 1.1 = 8.58 = 429/50. -/
def CAIr : TuningRecommendation :=
  ⟨.air_intake, "Cold Air Intake System", ⟨150, 500⟩, 429/50, .low⟩

/-- Scenario C, generated "Performance Air Filter": 5.0 · 1.2 · 1.1 = 6.6 = 33/5. -/
def PAFr : TuningRecommendation :=
  ⟨.air_intake, "Performance Air Filter", ⟨50, 200⟩, 33/5, .low⟩

/-- An advanced-user request: goal `[performance]`, unlimited budget range,
no explicit cap. -/
def carA : CarInfo := ⟨"BMW", "M3", 2021, .petrol, []⟩

/-- Preferences for the advanced-user request. -/
def prefsA : UserPreferences := ⟨[.performance], .unlimited, .advanced, none⟩

/-- Advanced request, generated "Stage 2 ECU Remap": min(8.5 · 1.2, 10) = 10. -/
def S2r : TuningRecommendation :=
  ⟨.ecu_remapping, "Stage 2 ECU Remap", ⟨500, 1200⟩, 10, .high⟩

/-- Advanced request, generated "Big Brake Kit": min(8.5 · 1.2, 10) = 10. -/
def BBr : TuningRecommendation :=
  ⟨.brake_system, "Big Brake Kit", ⟨1500, 5000⟩, 10, .high⟩

/-- An electric vehicle (the spec's Scenario B shape). -/
def carB : CarInfo := ⟨"Tesla", "Model 3", 2022, .electric, []⟩

/-- Intermediate-user preferences for the electric vehicle: goal
`[performance]`, moderate budget range, `max_budget = 6000`. -/
def prefsB : UserPreferences := ⟨[.performance], .moderate, .intermediate, some 6000⟩

/-- Preferences with an empty goal list. -/
def prefsEmpty : UserPreferences := ⟨[], .moderate, .advanced, none⟩

/-! ## Basic evaluation lemmas for the string comparisons -/

lemma pslt_ml : py_str_lt "medium" "low" = false := by decide

lemma pslt_mm : py_str_lt "medium" "medium" = false := by decide

lemma pslt_mh : py_str_lt "medium" "high" = false := by decide

lemma pslt_hl : py_str_lt "high" "low" = true := by decide

lemma pslt_hm : py_str_lt "high" "medium" = true := by decide

lemma pslt_hh : py_str_lt "high" "high" = false := by decide

lemma ecu_stage1 : name_contains_ECU "Stage 1 ECU Remap" = true := by decide

lemma ecu_stage2 : name_contains_ECU "Stage 2 ECU Remap" = true := by decide

lemma no_ecu_perf_exhaust : name_contains_ECU "Performance Exhaust System" = false := by decide

lemma no_ecu_cat_back : name_contains_ECU "Cat-Back Exhaust System" = false := by decide

lemma no_ecu_cold_air : name_contains_ECU "Cold Air Intake System" = false := by decide

lemma no_ecu_air_filter : name_contains_ECU "Performance Air Filter" = false := by decide

lemma no_ecu_springs : name_contains_ECU "Lowering Springs" = false := by decide

lemma no_ecu_coilover : name_contains_ECU "Coilover Suspension" = false := by decide

lemma no_ecu_tires : name_contains_ECU "Performance Tires" = false := by decide

lemma no_ecu_wheels : name_contains_ECU "Lightweight Wheels" = false := by decide

lemma no_ecu_brake_pads : name_contains_ECU "Performance Brake Pads" = false := by decide

lemma no_ecu_big_brake : name_contains_ECU "Big Brake Kit" = false := by decide

lemma no_ecu_body_kit : name_contains_ECU "Body Kit" = false := by decide

/-! ## Properties of deduplication -/

lemma dedup_go_sublist :
    ∀ (l : List TuningRecommendation) (seen), (dedup_go seen l).Sublist l
  | [], _ => by simp [dedup_go]
  | r :: rest, seen => by
    by_cases h : rec_key r ∈ seen
    · rw [dedup_go, if_pos h]
      exact (dedup_go_sublist rest seen).cons r
    · rw [dedup_go, if_neg h]
      exact (dedup_go_sublist rest (rec_key r :: seen)).cons₂ r

lemma dedup_go_key_not_seen :
    ∀ (l : List TuningRecommendation) (seen) (r), r ∈ dedup_go seen l → rec_key r ∉ seen
  | [], _, _ => by simp [dedup_go]
  | x :: rest, seen, r => by
    by_cases h : rec_key x ∈ seen
    · rw [dedup_go, if_pos h]
      exact dedup_go_key_not_seen rest seen r
    · rw [dedup_go, if_neg h]
      intro hr
      rcases List.mem_cons.mp hr with hr | hr
      · exact hr ▸ h
      · intro hseen
        exact dedup_go_key_not_seen rest _ r hr (List.mem_cons_of_mem _ hseen)

lemma dedup_go_pairwise_keys :
    ∀ (l : List TuningRecommendation) (seen),
      (dedup_go seen l).Pairwise (fun a b => rec_key a ≠ rec_key b)
  | [], _ => by simp [dedup_go]
  | x :: rest, seen => by
    by_cases h : rec_key x ∈ seen
    · rw [dedup_go, if_pos h]
      exact dedup_go_pairwise_keys rest seen
    · rw [dedup_go, if_neg h]
      refine List.pairwise_cons.mpr ⟨fun b hb => ?_, dedup_go_pairwise_keys rest _⟩
      intro hxb
      exact dedup_go_key_not_seen rest _ b hb (hxb ▸ List.mem_cons_self _ _)

lemma dedup_go_mem_of_split :
    ∀ (l1 : List TuningRecommendation) (seen) (r l2),
      rec_key r ∉ seen → (∀ x ∈ l1, rec_key x ≠ rec_key r) →
      r ∈ dedup_go seen (l1 ++ r :: l2)
  | [], seen, r, l2 => by
    intro hseen _
    rw [List.nil_append, dedup_go, if_neg hseen]
    exact List.mem_cons_self _ _
  | x :: l1, seen, r, l2 => by
    intro hseen hl1
    rw [List.cons_append, dedup_go]
    by_cases h : rec_key x ∈ seen
    · rw [if_pos h]
      exact dedup_go_mem_of_split l1 seen r l2 hseen fun y hy =>
        hl1 y (List.mem_cons_of_mem _ hy)
    · rw [if_neg h]
      refine List.mem_cons_of_mem _ ?_
      refine dedup_go_mem_of_split l1 _ r l2 ?_ fun y hy => hl1 y (List.mem_cons_of_mem _ hy)
      intro hmem
      rcases List.mem_cons.mp hmem with he | he
      · exact hl1 x (List.mem_cons_self _ _) he.symm
      · exact hseen he

lemma dedup_go_split_of_mem :
    ∀ (l : List TuningRecommendation) (seen) (r), r ∈ dedup_go seen l →
      ∃ l1 l2, l = l1 ++ r :: l2 ∧ ∀ x ∈ l1, rec_key x ≠ rec_key r
  | [], _, _ => by simp [dedup_go]
  | x :: rest, seen, r => by
    by_cases h : rec_key x ∈ seen
    · rw [dedup_go, if_pos h]
      intro hr
      obtain ⟨l1, l2, heq, hne⟩ := dedup_go_split_of_mem rest seen r hr
      refine ⟨x :: l1, l2, by rw [heq, List.cons_append], fun y hy => ?_⟩
      rcases List.mem_cons.mp hy with hy | hy
      · subst hy
        intro hk
        exact dedup_go_key_not_seen rest seen r hr (hk ▸ h)
      · exact hne y hy
    · rw [dedup_go, if_neg h]
      intro hr
      rcases List.mem_cons.mp hr with hr | hr
      · exact ⟨[], rest, by rw [hr]; rfl, by simp⟩
      · obtain ⟨l1, l2, heq, hne⟩ := dedup_go_split_of_mem rest _ r hr
        refine ⟨x :: l1, l2, by rw [heq, List.cons_append], fun y hy => ?_⟩
        rcases List.mem_cons.mp hy with hy | hy
        · subst hy
          intro hk
          exact dedup_go_key_not_seen rest _ r hr (hk ▸ List.mem_cons_self _ _)
        · exact hne y hy

lemma deduplicate_sublist (l : List TuningRecommendation) :
    (deduplicate_recommendations l).Sublist l :=
  dedup_go_sublist l []

lemma deduplicate_pairwise_keys (l : List TuningRecommendation) :
    (deduplicate_recommendations l).Pairwise (fun a b => rec_key a ≠ rec_key b) :=
  dedup_go_pairwise_keys l []

lemma deduplicate_mem_iff (l : List TuningRecommendation) (r : TuningRecommendation) :
    r ∈ deduplicate_recommendations l ↔
      ∃ l1 l2, l = l1 ++ r :: l2 ∧ ∀ x ∈ l1, rec_key x ≠ rec_key r := by
  constructor
  · exact dedup_go_split_of_mem l [] r
  · rintro ⟨l1, l2, heq, hne⟩
    rw [heq]
    exact dedup_go_mem_of_split l1 [] r l2 (by simp) hne

/-! ## Properties of the greedy budget selection -/

lemma budget_pass_sublist (B : ℚ) :
    ∀ (l : List TuningRecommendation) (t), (budget_pass B t l).Sublist l
  | [], _ => by simp [budget_pass]
  | r :: rest, t => by
    rw [budget_pass]
    by_cases h1 : t + r.cost_range.max ≤ B
    · rw [if_pos h1]
      exact (budget_pass_sublist B rest _).cons₂ r
    · rw [if_neg h1]
      by_cases h2 : t + r.cost_range.min ≤ B
      · rw [if_pos h2]
        exact (budget_pass_sublist B rest _).cons₂ r
      · rw [if_neg h2]
        exact (budget_pass_sublist B rest t).cons r

lemma budget_pass_eq_charged (B : ℚ) :
    ∀ (l : List TuningRecommendation) (t),
      budget_pass B t l = (budget_pass_charged B t l).map Prod.fst
  | [], _ => by simp [budget_pass, budget_pass_charged]
  | r :: rest, t => by
    rw [budget_pass, budget_pass_charged]
    by_cases h1 : t + r.cost_range.max ≤ B
    · rw [if_pos h1, if_pos h1, List.map_cons, budget_pass_eq_charged B rest]
    · rw [if_neg h1, if_neg h1]
      by_cases h2 : t + r.cost_range.min ≤ B
      · rw [if_pos h2, if_pos h2, List.map_cons, budget_pass_eq_charged B rest]
      · rw [if_neg h2, if_neg h2, budget_pass_eq_charged B rest]

lemma budget_pass_charged_amount (B : ℚ) :
    ∀ (l : List TuningRecommendation) (t) (p), p ∈ budget_pass_charged B t l →
      p.2 = p.1.cost_range.max ∨ p.2 = p.1.cost_range.min
  | [], _, _ => by simp [budget_pass_charged]
  | r :: rest, t, p => by
    rw [budget_pass_charged]
    by_cases h1 : t + r.cost_range.max ≤ B
    · rw [if_pos h1]
      intro hp
      rcases List.mem_cons.mp hp with hp | hp
      · subst hp; exact Or.inl rfl
      · exact budget_pass_charged_amount B rest _ p hp
    · rw [if_neg h1]
      by_cases h2 : t + r.cost_range.min ≤ B
      · rw [if_pos h2]
        intro hp
        rcases List.mem_cons.mp hp with hp | hp
        · subst hp; exact Or.inr rfl
        · exact budget_pass_charged_amount B rest _ p hp
      · rw [if_neg h2]
        exact budget_pass_charged_amount B rest t p

lemma budget_pass_charged_prefix_le (B : ℚ) :
    ∀ (l : List TuningRecommendation) (t), t ≤ B →
      ∀ n, t + charge_sum ((budget_pass_charged B t l).take n) ≤ B
  | [], t, ht, n => by simp [budget_pass_charged, charge_sum, ht]
  | r :: rest, t, ht, n => by
    rw [budget_pass_charged]
    by_cases h1 : t + r.cost_range.max ≤ B
    · rw [if_pos h1]
      cases n with
      | zero => simpa [charge_sum] using ht
      | succ n =>
          rw [List.take_succ_cons]
          have := budget_pass_charged_prefix_le B rest (t + r.cost_range.max) h1 n
          calc t + charge_sum ((r, r.cost_range.max) ::
                  (budget_pass_charged B (t + r.cost_range.max) rest).take n)
              = (t + r.cost_range.max) +
                  charge_sum ((budget_pass_charged B (t + r.cost_range.max) rest).take n) := by
                simp [charge_sum]; ring
            _ ≤ B := this
    · rw [if_neg h1]
      by_cases h2 : t + r.cost_range.min ≤ B
      · rw [if_pos h2]
        cases n with
        | zero => simpa [charge_sum] using ht
        | succ n =>
            rw [List.take_succ_cons]
            have := budget_pass_charged_prefix_le B rest (t + r.cost_range.min) h2 n
            calc t + charge_sum ((r, r.cost_range.min) ::
                    (budget_pass_charged B (t + r.cost_range.min) rest).take n)
                = (t + r.cost_range.min) +
                    charge_sum ((budget_pass_charged B (t + r.cost_range.min) rest).take n) := by
                  simp [charge_sum]; ring
              _ ≤ B := this
      · rw [if_neg h2]
        exact budget_pass_charged_prefix_le B rest t ht n

lemma spec_greedy_eq_take (B : ℚ) :
    ∀ (l : List TuningRecommendation) (t) (k),
      spec_greedy_select B t k l = (budget_pass B t l).take k
  | [], _, k => by simp [spec_greedy_select, budget_pass]
  | r :: rest, t, 0 => by
    rw [spec_greedy_select, List.take_zero]
  | r :: rest, t, Nat.succ k => by
    rw [spec_greedy_select, budget_pass]
    by_cases h1 : t + r.cost_range.max ≤ B
    · rw [if_pos h1, if_pos h1, List.take_succ_cons, spec_greedy_eq_take B rest]
    · rw [if_neg h1, if_neg h1]
      by_cases h2 : t + r.cost_range.min ≤ B
      · rw [if_pos h2, if_pos h2, List.take_succ_cons, spec_greedy_eq_take B rest]
      · rw [if_neg h2, if_neg h2, spec_greedy_eq_take B rest]

/-! ## Order and stability helpers -/

lemma pair_sublist_of_mem {a b : TuningRecommendation} :
    ∀ {l : List TuningRecommendation}, a ∈ l → b ∈ l → a ≠ b →
      [a, b].Sublist l ∨ [b, a].Sublist l := by
  intro l
  induction l with
  | nil => intro ha; exact absurd ha (List.not_mem_nil a)
  | cons x xs ih =>
      intro ha hb hne
      by_cases hax : a = x
      · have hb' : b ∈ xs := by
          rcases List.mem_cons.mp hb with h | h
          · exact absurd (h.trans hax.symm).symm hne
          · exact h
        refine Or.inl ?_
        rw [hax]
        exact List.Sublist.cons₂ x (List.singleton_sublist.mpr hb')
      · by_cases hbx : b = x
        · have ha' : a ∈ xs := by
            rcases List.mem_cons.mp ha with h | h
            · exact absurd h hax
            · exact h
          refine Or.inr ?_
          rw [hbx]
          exact List.Sublist.cons₂ x (List.singleton_sublist.mpr ha')
        · have ha' : a ∈ xs := by
            rcases List.mem_cons.mp ha with h | h
            · exact absurd h hax
            · exact h
          have hb' : b ∈ xs := by
            rcases List.mem_cons.mp hb with h | h
            · exact absurd h hbx
            · exact h
          exact (ih ha' hb' hne).imp (List.Sublist.cons x) (List.Sublist.cons x)

lemma not_pair_sublist_both {a b : TuningRecommendation} :
    ∀ {l : List TuningRecommendation}, l.Nodup → a ≠ b →
      [a, b].Sublist l → [b, a].Sublist l → False := by
  intro l
  induction l with
  | nil => intro _ _ h1; exact absurd (h1.subset (List.mem_cons_self a [b])) (List.not_mem_nil a)
  | cons x xs ih =>
      intro hnd hne h1 h2
      have hx : x ∉ xs := (List.nodup_cons.mp hnd).1
      cases h1 with
      | cons _ h1' =>
          cases h2 with
          | cons _ h2' => exact ih (List.nodup_cons.mp hnd).2 hne h1' h2'
          | cons₂ _ h2' =>
              exact hx (h1'.subset (List.mem_cons_of_mem a (List.mem_cons_self _ _)))
      | cons₂ _ h1' =>
          cases h2 with
          | cons _ h2' =>
              exact hx (h2'.subset (List.mem_cons_of_mem b (List.mem_cons_self _ _)))
          | cons₂ _ h2' => exact hne rfl

lemma filter_by_budget_sublist (l : List TuningRecommendation) (B : ℚ) :
    (filter_by_budget l B).Sublist l :=
  (List.take_sublist 10 (budget_pass B 0 l)).trans (budget_pass_sublist B l 0)

/-- The emitted recommendations form a sublist of the stable-sorted
deduplicated working list. -/
lemma recommendations_sublist_sorted (car_info : CarInfo) (user_preferences : UserPreferences) :
    (generate_recommendations car_info user_preferences).recommendations.Sublist
      (sort_by_priority_desc
        (deduplicate_recommendations (all_recommendations car_info user_preferences))) :=
  filter_by_budget_sublist _ _

lemma recommendations_mem_all {car_info : CarInfo} {user_preferences : UserPreferences}
    {r : TuningRecommendation}
    (h : r ∈ (generate_recommendations car_info user_preferences).recommendations) :
    r ∈ all_recommendations car_info user_preferences := by
  have h1 : r ∈ sort_by_priority_desc
      (deduplicate_recommendations (all_recommendations car_info user_preferences)) :=
    (recommendations_sublist_sorted car_info user_preferences).subset h
  have h2 : r ∈ deduplicate_recommendations (all_recommendations car_info user_preferences) :=
    (List.mem_insertionSort priority_ge).mp h1
  exact (deduplicate_sublist _).subset h2

/-- Membership in the working list, unfolded to the generating goal, category
and catalog option together with the three filters that the option passed. -/
lemma mem_all_recommendations {car_info : CarInfo} {user_preferences : UserPreferences}
    {r : TuningRecommendation} (h : r ∈ all_recommendations car_info user_preferences) :
    ∃ goal ∈ user_preferences.primary_goals, ∃ category ∈ goal_priorities goal,
      ∃ option ∈ get_tuning_options_for_category category,
        passes_experience_filters option
            (experience_filters user_preferences.experience_level) = true ∧
        option.cost_range.max ≤ resolve_max_budget user_preferences ∧
        is_compatible_with_engine option car_info.engine_type = true ∧
        r = { mk_recommendation category option with
              priority_score :=
                adjust_priority_score (mk_recommendation category option) goal
                  user_preferences } := by
  rw [all_recommendations, List.mem_flatMap] at h
  obtain ⟨goal, hgoal, hr⟩ := h
  rw [generate_goal_recommendations, List.mem_flatMap] at hr
  obtain ⟨category, hcat, hr⟩ := hr
  rw [List.mem_map] at hr
  obtain ⟨option, hopt, hr⟩ := hr
  rw [List.mem_filter] at hopt
  obtain ⟨hopt, hallow⟩ := hopt
  rw [option_allowed, Bool.and_eq_true, Bool.and_eq_true] at hallow
  obtain ⟨⟨hpass, hcost⟩, hcompat⟩ := hallow
  exact ⟨goal, hgoal, category, hcat, option, hopt, hpass, of_decide_eq_true hcost,
    hcompat, hr.symm⟩

/-! ## Behaviour of the experience filter's safety-ceiling comparison -/

/-- Under the intermediate and advanced filters (ceiling string "high"),
every option whose safety level is not `high` is rejected, because both
"low" and "medium" compare lexicographically greater than "high". -/
lemma ceiling_rejects_non_high (option : TuningOption) (level : ExperienceLevel)
    (hlevel : level = .intermediate ∨ level = .advanced)
    (hsl : option.safety_level ≠ .high) :
    passes_experience_filters option (experience_filters level) = false := by
  have hmax : (experience_filters level).max_safety_level = .high := by
    rcases hlevel with h | h <;> rw [h] <;> rfl
  rw [passes_experience_filters, hmax]
  cases h : option.safety_level with
  | low => rw [SafetyLevel.value, SafetyLevel.value, if_pos]; exact pslt_hl
  | medium => rw [SafetyLevel.value, SafetyLevel.value, if_pos]; exact pslt_hm
  | high => exact absurd h hsl

/-- Conversely, an option that passes the intermediate or advanced filter has
safety level `high`. -/
lemma passes_filter_high {option : TuningOption} {level : ExperienceLevel}
    (hlevel : level = .intermediate ∨ level = .advanced)
    (h : passes_experience_filters option (experience_filters level) = true) :
    option.safety_level = .high := by
  by_contra hsl
  rw [ceiling_rejects_non_high option level hlevel hsl] at h
  exact Bool.false_ne_true h

/-! ## Engine-compatibility helpers -/

lemma compatible_electric_no_ecu {option : TuningOption}
    (h : is_compatible_with_engine option EngineType.electric = true) :
    name_contains_ECU option.name = false := by
  cases hb : name_contains_ECU option.name with
  | false => rfl
  | true =>
      rw [is_compatible_with_engine, hb] at h
      simp at h

lemma compatible_of_ne_electric (option : TuningOption) (engine_type : EngineType)
    (h : engine_type ≠ EngineType.electric) :
    is_compatible_with_engine option engine_type = true := by
  rw [is_compatible_with_engine]
  have hd : decide (engine_type = EngineType.electric) = false := decide_eq_false h
  rw [hd]
  simp

/-! ## The priority-adjustment formula -/

/-- When the adjusting goal is among the primary goals (as is always the case
for candidates generated in step 3), `_adjust_priority_score` computes
min(base · 1.2 · (0.7 if beginner ∧ high) · (1.1 if budget ∧ max < 1000), 10). -/
lemma adjust_priority_score_formula (recommendation : TuningRecommendation)
    (goal : DrivingGoal) (preferences : UserPreferences)
    (hgoal : goal ∈ preferences.primary_goals) :
    adjust_priority_score recommendation goal preferences =
      min (recommendation.priority_score * (12/10) *
        (if preferences.experience_level = ExperienceLevel.beginner ∧
            recommendation.safety_level = SafetyLevel.high then (7:ℚ)/10 else 1) *
        (if preferences.budget_range = BudgetRange.budget ∧
            recommendation.cost_range.max < 1000 then (11:ℚ)/10 else 1)) 10 := by
  rw [adjust_priority_score]
  simp only [if_pos hgoal]
  split_ifs <;> ring_nf

/-! ## Projections of the generated report -/

lemma generate_recommendations_recs (car_info : CarInfo) (user_preferences : UserPreferences) :
    (generate_recommendations car_info user_preferences).recommendations =
      filter_by_budget
        (sort_by_priority_desc
          (deduplicate_recommendations (all_recommendations car_info user_preferences)))
        (resolve_max_budget user_preferences) := rfl

lemma generate_recommendations_total (car_info : CarInfo) (user_preferences : UserPreferences) :
    (generate_recommendations car_info user_preferences).total_estimated_cost =
      calculate_total_cost (generate_recommendations car_info user_preferences).recommendations :=
  rfl

/-! ## Concrete evaluation of the scenarios -/

lemma allC (mk md : String) (yr : Int) (mods : List String) (et : EngineType) :
    all_recommendations ⟨mk, md, yr, et, mods⟩ prefsC = [LSr, LWr, CAIr, PAFr, LWr] := by
  cases et <;>
    norm_num +decide [all_recommendations, prefsC, generate_goal_recommendations,
      get_tuning_options_for_category, tuning_options, goal_priorities, experience_filters,
      option_allowed, passes_experience_filters, SafetyLevel.value, pslt_ml, pslt_mm, pslt_mh,
      is_compatible_with_engine, ecu_stage1, ecu_stage2, no_ecu_cold_air, no_ecu_air_filter,
      no_ecu_springs, no_ecu_coilover, no_ecu_tires, no_ecu_wheels, no_ecu_body_kit,
      adjust_priority_score, mk_recommendation, resolve_max_budget, get_budget_range,
      budget_ranges, stage_1_ecu_remap, stage_2_ecu_remap, cold_air_intake_system,
      performance_air_filter, lowering_springs, coilover_suspension, performance_tires,
      lightweight_wheels, body_kit, LSr, LWr, CAIr, PAFr]

lemma dedupC :
    deduplicate_recommendations [LSr, LWr, CAIr, PAFr, LWr] = [LSr, LWr, CAIr, PAFr] := by
  norm_num +decide [deduplicate_recommendations, dedup_go, rec_key, LSr, LWr, CAIr, PAFr]

lemma sortC : sort_by_priority_desc [LSr, LWr, CAIr, PAFr] = [CAIr, LSr, LWr, PAFr] := by
  norm_num +decide [sort_by_priority_desc, List.insertionSort, List.orderedInsert,
    priority_ge, LSr, LWr, CAIr, PAFr]

lemma budgetC : filter_by_budget [CAIr, LSr, LWr, PAFr] 2000 = [CAIr, LSr, LWr, PAFr] := by
  norm_num +decide [filter_by_budget, budget_pass, LSr, LWr, CAIr, PAFr]

lemma recsC (mk md : String) (yr : Int) (mods : List String) (et : EngineType) :
    (generate_recommendations ⟨mk, md, yr, et, mods⟩ prefsC).recommendations =
      [CAIr, LSr, LWr, PAFr] := by
  rw [generate_recommendations_recs, allC, dedupC]
  have hB : resolve_max_budget prefsC = 2000 := rfl
  rw [hB, sortC, budgetC]

lemma totalC (mk md : String) (yr : Int) (mods : List String) (et : EngineType) :
    (generate_recommendations ⟨mk, md, yr, et, mods⟩ prefsC).total_estimated_cost =
      ⟨1000, 3500, "USD"⟩ := by
  rw [generate_recommendations_total, recsC]
  norm_num [calculate_total_cost, LSr, LWr, CAIr, PAFr]

lemma allA : all_recommendations carA prefsA = [S2r, BBr] := by
  norm_num +decide [all_recommendations, carA, prefsA, generate_goal_recommendations,
    get_tuning_options_for_category, tuning_options, goal_priorities, experience_filters,
    option_allowed, passes_experience_filters, SafetyLevel.value, pslt_hl, pslt_hm, pslt_hh,
    is_compatible_with_engine, ecu_stage1, ecu_stage2, no_ecu_perf_exhaust, no_ecu_cat_back,
    no_ecu_cold_air, no_ecu_air_filter, no_ecu_springs, no_ecu_coilover, no_ecu_tires,
    no_ecu_wheels, no_ecu_brake_pads, no_ecu_big_brake, no_ecu_body_kit,
    adjust_priority_score, mk_recommendation, resolve_max_budget, get_budget_range,
    budget_ranges, stage_1_ecu_remap, stage_2_ecu_remap, performance_exhaust_system,
    cat_back_exhaust_system, cold_air_intake_system, performance_air_filter,
    lowering_springs, coilover_suspension, performance_tires, lightweight_wheels,
    performance_brake_pads, big_brake_kit, body_kit, S2r, BBr]

lemma dedupA :
    deduplicate_recommendations (all_recommendations carA prefsA) = [S2r, BBr] := by
  rw [allA]
  norm_num +decide [deduplicate_recommendations, dedup_go, rec_key, S2r, BBr]

lemma recsA : (generate_recommendations carA prefsA).recommendations = [S2r, BBr] := by
  rw [generate_recommendations_recs, dedupA]
  have hB : resolve_max_budget prefsA = 100000 := rfl
  rw [hB]
  norm_num +decide [sort_by_priority_desc, List.insertionSort, List.orderedInsert,
    priority_ge, filter_by_budget, budget_pass, S2r, BBr]

lemma recsB : (generate_recommendations carB prefsB).recommendations = [BBr] := by
  rw [generate_recommendations_recs]
  have hAll : all_recommendations carB prefsB = [BBr] := by
    norm_num +decide [all_recommendations, carB, prefsB, generate_goal_recommendations,
      get_tuning_options_for_category, tuning_options, goal_priorities, experience_filters,
      option_allowed, passes_experience_filters, SafetyLevel.value, pslt_hl, pslt_hm, pslt_hh,
      is_compatible_with_engine, ecu_stage1, ecu_stage2, no_ecu_perf_exhaust, no_ecu_cat_back,
      no_ecu_cold_air, no_ecu_air_filter, no_ecu_springs, no_ecu_coilover, no_ecu_tires,
      no_ecu_wheels, no_ecu_brake_pads, no_ecu_big_brake, no_ecu_body_kit,
      adjust_priority_score, mk_recommendation, resolve_max_budget, get_budget_range,
      budget_ranges, stage_1_ecu_remap, stage_2_ecu_remap, performance_exhaust_system,
      cat_back_exhaust_system, cold_air_intake_system, performance_air_filter,
      lowering_springs, coilover_suspension, performance_tires, lightweight_wheels,
      performance_brake_pads, big_brake_kit, body_kit, BBr]
  rw [hAll]
  have hB : resolve_max_budget prefsB = 6000 := rfl
  rw [hB]
  norm_num +decide [deduplicate_recommendations, dedup_go, rec_key,
    sort_by_priority_desc, List.insertionSort, List.orderedInsert, priority_ge,
    filter_by_budget, budget_pass, BBr]

lemma recsC_any (car_info : CarInfo) :
    (generate_recommendations car_info prefsC).recommendations = [CAIr, LSr, LWr, PAFr] := by
  obtain ⟨mk, md, yr, et, mods⟩ := car_info
  exact recsC mk md yr mods et

lemma totalC_any (car_info : CarInfo) :
    (generate_recommendations car_info prefsC).total_estimated_cost = ⟨1000, 3500, "USD"⟩ := by
  obtain ⟨mk, md, yr, et, mods⟩ := car_info
  exact totalC mk md yr mods et

lemma allC_carC : all_recommendations carC prefsC = [LSr, LWr, CAIr, PAFr, LWr] :=
  allC "Any" "Car" 2020 [] .petrol

/-! ## The claims -/

/-- C1: the spec says the experience filter's safety ceiling rejects an option
iff its safety level exceeds the level's ceiling in the ordinal order
low < medium < high.  The code instead compares the enum members' *string*
values lexicographically, so the intermediate filter (ceiling `high`,
priority bound 8.5, avoid-high-risk off) rejects the low-safety
"Performance Exhaust System" even though low ≤ high in the ordinal order and
every other check passes: the claim is right about the intent and the code is
wrong. -/
theorem safety_ceiling_lexicographic_bug :
    passes_experience_filters performance_exhaust_system
        (experience_filters ExperienceLevel.intermediate) = false ∧
    safety_ordinal performance_exhaust_system.safety_level ≤
      safety_ordinal (experience_filters ExperienceLevel.intermediate).max_safety_level ∧
    performance_exhaust_system.priority_score ≤
      (experience_filters ExperienceLevel.intermediate).max_priority_score ∧
    (experience_filters ExperienceLevel.intermediate).avoid_high_risk_mods = false := by
  refine ⟨?_, by decide, ?_, rfl⟩
  · norm_num [passes_experience_filters, performance_exhaust_system, experience_filters,
      SafetyLevel.value, pslt_hl]
  · norm_num [performance_exhaust_system, experience_filters]

/-- C10: because the safety ceiling compares the enum's string values
lexicographically and both "low" and "medium" are greater than "high", every
option that passes the intermediate or advanced filter has safety level
`high`; hence every recommendation emitted for such users has safety level
`high`, and every non-high option is rejected by the filter. -/
theorem intermediate_advanced_high_only :
    (∀ (car_info : CarInfo) (user_preferences : UserPreferences),
      (user_preferences.experience_level = ExperienceLevel.intermediate ∨
        user_preferences.experience_level = ExperienceLevel.advanced) →
      ∀ r ∈ (generate_recommendations car_info user_preferences).recommendations,
        r.safety_level = SafetyLevel.high) ∧
    (∀ (option : TuningOption) (level : ExperienceLevel),
      (level = ExperienceLevel.intermediate ∨ level = ExperienceLevel.advanced) →
      option.safety_level ≠ SafetyLevel.high →
      passes_experience_filters option (experience_filters level) = false) := by
  constructor
  · intro car_info user_preferences hlevel r hr
    obtain ⟨goal, _, category, _, option, _, hpass, _, _, hre⟩ :=
      mem_all_recommendations (recommendations_mem_all hr)
    have hopt : option.safety_level = SafetyLevel.high := passes_filter_high hlevel hpass
    rw [hre]
    exact hopt
  · exact fun option level h1 h2 => ceiling_rejects_non_high option level h1 h2

/-- Witness for C10 at the advanced petrol request. -/
theorem intermediate_advanced_high_only_witness : S2r.safety_level = SafetyLevel.high :=
  intermediate_advanced_high_only.1 carA prefsA (Or.inr rfl) S2r (by simp [recsA])

/-- C3 counterexample: with `maxBudget = 0` (present, a float ≥ 0) and budget
range `budget`, the resolved cap is the range bound 2000, not the claimed
authoritative 0: Python's `or` treats `0.0` as falsy. -/
theorem resolved_cap_counterexample :
    resolve_max_budget ⟨[.daily_comfort], .budget, .beginner, some 0⟩ = 2000 ∧
      (2000 : ℚ) ≠ 0 :=
  ⟨rfl, by decide⟩

/-- C3 (amended): the resolved spending cap equals `prefs.maxBudget` whenever
it is present **and nonzero**; when it is absent **or zero** the knowledge
base's upper bound for the budget range is used instead. -/
theorem resolved_cap_amended (user_preferences : UserPreferences) (b : ℚ) :
    (user_preferences.max_budget = some b → b ≠ 0 →
      resolve_max_budget user_preferences = b) ∧
    ((user_preferences.max_budget = none ∨ user_preferences.max_budget = some 0) →
      resolve_max_budget user_preferences =
        (get_budget_range user_preferences.budget_range).max) := by
  constructor
  · intro h hb
    rw [resolve_max_budget, h]
    exact if_neg hb
  · rintro (h | h) <;> rw [resolve_max_budget, h]
    exact if_pos rfl

/-- Witness for C3 (amended) at a nonzero and a zero cap. -/
theorem resolved_cap_amended_witness :
    resolve_max_budget ⟨[.performance], .moderate, .advanced, some 5⟩ = 5 ∧
    resolve_max_budget ⟨[.performance], .budget, .beginner, some 0⟩ = 2000 :=
  ⟨(resolved_cap_amended ⟨[.performance], .moderate, .advanced, some 5⟩ 5).1 rfl (by decide),
   (resolved_cap_amended ⟨[.performance], .budget, .beginner, some 0⟩ 0).2 (Or.inr rfl)⟩

/-- C2 counterexample: for Scenario C the emitted max total is 3500 > 2000,
because "Lightweight Wheels" and "Performance Air Filter" are accepted via the
min-cost fallback (charged 600 and 50 against the running total) while
`totalEstimatedCost.max` sums their full max costs 2000 and 200. -/
theorem scenario_c_counterexample :
    ¬ ((generate_recommendations carC prefsC).total_estimated_cost.max ≤ 2000) := by
  rw [totalC_any carC]
  norm_num

/-- C2 (amended): for Scenario C every emitted recommendation has safety level
in {low, medium}, and `totalEstimatedCost.min ≤ 2000`; the max total is 3500,
exceeding the 2000 cap, because two items are accepted via the min-cost
fallback. -/
theorem scenario_c_amended (car_info : CarInfo) :
    (∀ r ∈ (generate_recommendations car_info prefsC).recommendations,
      r.safety_level = SafetyLevel.low ∨ r.safety_level = SafetyLevel.medium) ∧
    (generate_recommendations car_info prefsC).total_estimated_cost.min ≤ 2000 ∧
    (generate_recommendations car_info prefsC).total_estimated_cost.max = 3500 := by
  refine ⟨?_, ?_, ?_⟩
  · intro r hr
    rw [recsC_any] at hr
    simp only [List.mem_cons, List.not_mem_nil, or_false] at hr
    rcases hr with rfl | rfl | rfl | rfl <;> decide
  · rw [totalC_any]
    decide
  · rw [totalC_any]

/-- Witness for C2 (amended) at the concrete Scenario C vehicle. -/
theorem scenario_c_amended_witness :
    (CAIr.safety_level = SafetyLevel.low ∨ CAIr.safety_level = SafetyLevel.medium) ∧
    (generate_recommendations carC prefsC).total_estimated_cost.min ≤ 2000 :=
  ⟨(scenario_c_amended carC).1 CAIr (by simp [recsC_any]),
   (scenario_c_amended carC).2.1⟩

/-- C9: with an empty goal list, `generate_recommendations` still returns a
report, with no recommendations and a zero total cost in USD. -/
theorem empty_goals_degenerate (car_info : CarInfo) (user_preferences : UserPreferences)
    (h : user_preferences.primary_goals = []) :
    (generate_recommendations car_info user_preferences).recommendations = [] ∧
    (generate_recommendations car_info user_preferences).total_estimated_cost =
      ⟨0, 0, "USD"⟩ := by
  obtain ⟨goals, br, el, mb⟩ := user_preferences
  have hg : goals = [] := h
  subst hg
  exact ⟨rfl, rfl⟩

/-- Witness for C9 at concrete empty-goal preferences. -/
theorem empty_goals_degenerate_witness :
    (generate_recommendations carC prefsEmpty).recommendations = [] ∧
    (generate_recommendations carC prefsEmpty).total_estimated_cost = ⟨0, 0, "USD"⟩ :=
  empty_goals_degenerate carC prefsEmpty rfl

/-- C4: the emitted recommendations are exactly the first at most 10
candidates accepted by the single left-to-right greedy pass over the
priority-sorted deduplicated list (accept at cost.max, else fall back to
cost.min, else skip and continue); the output length is ≤ 10; every accepted
item is charged its cost.max or its cost.min; and assuming the resolved cap
is nonnegative (true of every validated request, `maxBudget ≥ 0`), every
prefix of the output's running charged sum stays within the resolved cap. -/
theorem greedy_budget_selection (car_info : CarInfo) (user_preferences : UserPreferences) :
    (generate_recommendations car_info user_preferences).recommendations =
      spec_greedy_select (resolve_max_budget user_preferences) 0 10
        (sort_by_priority_desc (deduplicate_recommendations
          (all_recommendations car_info user_preferences))) ∧
    (generate_recommendations car_info user_preferences).recommendations.length ≤ 10 ∧
    (generate_recommendations car_info user_preferences).recommendations =
      ((budget_pass_charged (resolve_max_budget user_preferences) 0
          (sort_by_priority_desc (deduplicate_recommendations
            (all_recommendations car_info user_preferences)))).take 10).map Prod.fst ∧
    (∀ p ∈ budget_pass_charged (resolve_max_budget user_preferences) 0
        (sort_by_priority_desc (deduplicate_recommendations
          (all_recommendations car_info user_preferences))),
      p.2 = p.1.cost_range.max ∨ p.2 = p.1.cost_range.min) ∧
    (0 ≤ resolve_max_budget user_preferences → ∀ n,
      charge_sum (((budget_pass_charged (resolve_max_budget user_preferences) 0
          (sort_by_priority_desc (deduplicate_recommendations
            (all_recommendations car_info user_preferences)))).take 10).take n) ≤
        resolve_max_budget user_preferences) := by
  refine ⟨?_, ?_, ?_, ?_, ?_⟩
  · rw [generate_recommendations_recs, filter_by_budget, spec_greedy_eq_take]
  · rw [generate_recommendations_recs, filter_by_budget]
    exact List.length_take_le 10 _
  · rw [generate_recommendations_recs, filter_by_budget, budget_pass_eq_charged,
      List.map_take]
  · exact fun p hp => budget_pass_charged_amount _ _ 0 p hp
  · intro h0 n
    rw [List.take_take]
    have := budget_pass_charged_prefix_le (resolve_max_budget user_preferences)
        (sort_by_priority_desc (deduplicate_recommendations
          (all_recommendations car_info user_preferences))) 0 h0 (min n 10)
    calc charge_sum ((budget_pass_charged (resolve_max_budget user_preferences) 0
          (sort_by_priority_desc (deduplicate_recommendations
            (all_recommendations car_info user_preferences)))).take (min n 10))
        = 0 + charge_sum ((budget_pass_charged (resolve_max_budget user_preferences) 0
            (sort_by_priority_desc (deduplicate_recommendations
              (all_recommendations car_info user_preferences)))).take (min n 10)) := by
          rw [zero_add]
      _ ≤ resolve_max_budget user_preferences := this

/-- Witness for C4 at Scenario C (resolved cap 2000 ≥ 0, prefix length 2). -/
theorem greedy_budget_selection_witness :
    (generate_recommendations carC prefsC).recommendations =
      spec_greedy_select (resolve_max_budget prefsC) 0 10
        (sort_by_priority_desc (deduplicate_recommendations
          (all_recommendations carC prefsC))) ∧
    charge_sum (((budget_pass_charged (resolve_max_budget prefsC) 0
        (sort_by_priority_desc (deduplicate_recommendations
          (all_recommendations carC prefsC)))).take 10).take 2) ≤
      resolve_max_budget prefsC :=
  ⟨(greedy_budget_selection carC prefsC).1,
   (greedy_budget_selection carC prefsC).2.2.2.2 (by decide) 2⟩

/-- C5: no two emitted recommendations share the same (category, name) key,
and deduplication keeps exactly the first instance of each key in
working-list order (hence the surviving instance is the one adjusted under
the first goal that produced it), preserving first-seen order (the result is
a sublist of its input). -/
theorem dedup_first_occurrence (car_info : CarInfo) (user_preferences : UserPreferences)
    (l : List TuningRecommendation) (r : TuningRecommendation) :
    (generate_recommendations car_info user_preferences).recommendations.Pairwise
      (fun a b => rec_key a ≠ rec_key b) ∧
    (deduplicate_recommendations l).Sublist l ∧
    (r ∈ deduplicate_recommendations l ↔
      ∃ l1 l2, l = l1 ++ r :: l2 ∧ ∀ x ∈ l1, rec_key x ≠ rec_key r) := by
  refine ⟨?_, deduplicate_sublist l, deduplicate_mem_iff l r⟩
  have hd := deduplicate_pairwise_keys (all_recommendations car_info user_preferences)
  have hperm : (sort_by_priority_desc (deduplicate_recommendations
      (all_recommendations car_info user_preferences))).Perm
        (deduplicate_recommendations (all_recommendations car_info user_preferences)) :=
    List.perm_insertionSort priority_ge _
  have hsorted := (hperm.pairwise_iff (fun h he => h he.symm)).mpr hd
  exact List.Pairwise.sublist
    (recommendations_sublist_sorted car_info user_preferences) hsorted

/-- Witness for C5: the head of the Scenario C working list survives
deduplication as the first instance of its key. -/
theorem dedup_first_occurrence_witness :
    (generate_recommendations carC prefsC).recommendations.Pairwise
      (fun a b => rec_key a ≠ rec_key b) ∧
    LSr ∈ deduplicate_recommendations [LSr, LWr, CAIr, PAFr, LWr] :=
  ⟨(dedup_first_occurrence carC prefsC [] LSr).1,
   (dedup_first_occurrence carC prefsC [LSr, LWr, CAIr, PAFr, LWr] LSr).2.2.mpr
     ⟨[], [LWr, CAIr, PAFr, LWr], rfl, by simp⟩⟩

/-- C6: the emitted sequence is sorted by priority score in descending
(non-strict) order, and two emitted recommendations with equal scores appear
in the same relative order as in the pre-sort deduplicated working list
(stability of the sort, preserved by the budget selection). -/
theorem sorted_descending_stable (car_info : CarInfo) (user_preferences : UserPreferences)
    (a b : TuningRecommendation) :
    (generate_recommendations car_info user_preferences).recommendations.Pairwise
      priority_ge ∧
    (a.priority_score = b.priority_score →
      [a, b].Sublist (deduplicate_recommendations
        (all_recommendations car_info user_preferences)) →
      a ∈ (generate_recommendations car_info user_preferences).recommendations →
      b ∈ (generate_recommendations car_info user_preferences).recommendations →
      [a, b].Sublist (generate_recommendations car_info user_preferences).recommendations) := by
  constructor
  · exact List.Pairwise.sublist
      (recommendations_sublist_sorted car_info user_preferences)
      (List.sorted_insertionSort priority_ge _)
  · intro hscore hpre ha hb
    have hkeys := deduplicate_pairwise_keys (all_recommendations car_info user_preferences)
    have hnd : (deduplicate_recommendations
        (all_recommendations car_info user_preferences)).Nodup :=
      hkeys.imp fun h he => h (congrArg rec_key he)
    have hne : a ≠ b := by
      have := List.Pairwise.sublist hpre hnd
      exact (List.pairwise_pair.mp this)
    have hperm : (sort_by_priority_desc (deduplicate_recommendations
        (all_recommendations car_info user_preferences))).Perm
          (deduplicate_recommendations (all_recommendations car_info user_preferences)) :=
      List.perm_insertionSort priority_ge _
    have hnd_sorted : (sort_by_priority_desc (deduplicate_recommendations
        (all_recommendations car_info user_preferences))).Nodup :=
      hperm.nodup_iff.mpr hnd
    have hpair_sorted : [a, b].Sublist (sort_by_priority_desc
        (deduplicate_recommendations (all_recommendations car_info user_preferences))) :=
      List.pair_sublist_insertionSort hscore.ge hpre
    rcases pair_sublist_of_mem ha hb hne with h | h
    · exact h
    · exact absurd hpair_sorted fun hab =>
        not_pair_sublist_both hnd_sorted hne hab
          (h.trans (recommendations_sublist_sorted car_info user_preferences))

/-- Witness for C6 at the advanced petrol request, whose two emitted
recommendations both have score 10. -/
theorem sorted_descending_stable_witness :
    (generate_recommendations carA prefsA).recommendations.Pairwise priority_ge ∧
    [S2r, BBr].Sublist (generate_recommendations carA prefsA).recommendations :=
  ⟨(sorted_descending_stable carA prefsA S2r BBr).1,
   (sorted_descending_stable carA prefsA S2r BBr).2 rfl (by simp [dedupA])
     (by simp [recsA]) (by simp [recsA])⟩

/-- C7: for an electric vehicle no emitted recommendation's name contains the
substring "ECU"; for every other engine type the engine-compatibility rule
rejects nothing. -/
theorem electric_excludes_ecu (car_info : CarInfo) (user_preferences : UserPreferences) :
    (car_info.engine_type = EngineType.electric →
      ∀ r ∈ (generate_recommendations car_info user_preferences).recommendations,
        name_contains_ECU r.name = false) ∧
    (∀ engine_type : EngineType, engine_type ≠ EngineType.electric →
      ∀ option : TuningOption, is_compatible_with_engine option engine_type = true) := by
  constructor
  · intro he r hr
    obtain ⟨goal, _, category, _, option, _, _, _, hcompat, hre⟩ :=
      mem_all_recommendations (recommendations_mem_all hr)
    rw [he] at hcompat
    rw [hre]
    exact compatible_electric_no_ecu hcompat
  · exact fun engine_type h option => compatible_of_ne_electric option engine_type h

/-- Witness for C7 at the electric intermediate request and at a non-electric
engine with an ECU-named option. -/
theorem electric_excludes_ecu_witness :
    name_contains_ECU BBr.name = false ∧
    is_compatible_with_engine stage_1_ecu_remap EngineType.petrol = true :=
  ⟨(electric_excludes_ecu carB prefsB).1 rfl BBr (by simp [recsB]),
   (electric_excludes_ecu carB prefsB).2 EngineType.petrol (by decide) stage_1_ecu_remap⟩

/-- C8: every candidate generated in step 3 carries the adjusted score
min(10, base · 1.2 · (0.7 iff beginner and high safety) · (1.1 iff budget
range `budget` and max cost < 1000)); the 1.2 goal multiplier applies
unconditionally because each candidate's adjusting goal is drawn from
`prefs.primaryGoals`. -/
theorem adjusted_score_formula (car_info : CarInfo) (user_preferences : UserPreferences)
    (r : TuningRecommendation) (h : r ∈ all_recommendations car_info user_preferences) :
    ∃ goal ∈ user_preferences.primary_goals, ∃ category ∈ goal_priorities goal,
      ∃ option ∈ get_tuning_options_for_category category,
        r.priority_score =
          min (option.priority_score * (12/10) *
            (if user_preferences.experience_level = ExperienceLevel.beginner ∧
                option.safety_level = SafetyLevel.high then (7:ℚ)/10 else 1) *
            (if user_preferences.budget_range = BudgetRange.budget ∧
                option.cost_range.max < 1000 then (11:ℚ)/10 else 1)) 10 := by
  obtain ⟨goal, hgoal, category, hcat, option, hopt, _, _, _, hre⟩ :=
    mem_all_recommendations h
  refine ⟨goal, hgoal, category, hcat, option, hopt, ?_⟩
  rw [hre]
  exact adjust_priority_score_formula (mk_recommendation category option) goal
    user_preferences hgoal

/-- Witness for C8 at the first Scenario C candidate. -/
theorem adjusted_score_formula_witness :
    ∃ goal ∈ prefsC.primary_goals, ∃ category ∈ goal_priorities goal,
      ∃ option ∈ get_tuning_options_for_category category,
        LSr.priority_score =
          min (option.priority_score * (12/10) *
            (if prefsC.experience_level = ExperienceLevel.beginner ∧
                option.safety_level = SafetyLevel.high then (7:ℚ)/10 else 1) *
            (if prefsC.budget_range = BudgetRange.budget ∧
                option.cost_range.max < 1000 then (11:ℚ)/10 else 1)) 10 :=
  adjusted_score_formula carC prefsC LSr (by simp [allC_carC])

end CarTuning
